import Mathlib

/-!
A shallow embedding of the build-orchestration core of the repository
(`builder_core.py`): ZIP / directory source → safe extraction → project-root
detection → interpreter search + venv creation → pip + PyInstaller (onedir)
→ copy/zip packaging, with progress and log callbacks.

Modelling conventions:
* Subprocess exit statuses (interpreter probe, `-m venv`, the pip installs,
  the PyInstaller run) are inputs of the model (`Nat` exit codes); the
  Python code branches only on `== 0` / `!= 0`, mirrored here.
* The filesystem is modelled by the observables the code reads or writes:
  the list of zip entry paths (`ZPath`), the extracted/project tree as seen
  by `_detect_root_with_app_py` (`RootDir`), the contents of the PyInstaller
  `dist_out` directory (name ↦ content fingerprint), the destination-parent
  directory (`String → Option Item`), and existence flags for the temporary
  extraction root, `.venv_build`, `build_out` and `dist_out`.
* `Path.is_absolute()` is host semantics, modelled as a boolean field of a
  zip entry path; `".." in p.parts` is membership of `".."` in the part list.
* Log lines produced via `_emit` are modelled verbatim (minus quote
  characters); the `$ cmd` echo lines of `_run` and the streamed subprocess
  output are not modelled — no claim is about them.
* Python exceptions are mapped to the spec's error taxonomy: the
  `ValueError` of `_safe_unzip` ↦ `pathTraversal`, `FileNotFoundError`
  ("Falta app.py") ↦ `missingEntrypoint`, the `RuntimeError` of
  `_create_venv` ↦ `interpreterNotFound`, the `RuntimeError` after a
  non-zero PyInstaller exit ↦ `compilerError`, and the
  `FileNotFoundError` for a missing `dist/app` ↦ `artifactNotFound`.
-/

namespace BuilderCore

/-- Error taxonomy (spec §7) for the exceptions raised by `builder_core.py`. -/
inductive BuildError
  | pathTraversal
  | missingEntrypoint
  | interpreterNotFound
  | compilerError
  | artifactNotFound
deriving DecidableEq, Repr

/-- A zip entry's path, as inspected by `_safe_unzip`:
`Path(m.filename).is_absolute()` and `Path(m.filename).parts`. -/
structure ZPath where
  absolute : Bool
  parts : List String
deriving DecidableEq, Repr

/-- The per-entry check of `_safe_unzip`:
`p.is_absolute() or ".." in p.parts`. -/
def zUnsafe (p : ZPath) : Bool :=
  p.absolute || p.parts.contains ".."

/-- `_safe_unzip`: iterate over all entries raising on the first unsafe one
(`find?` returns the first entry satisfying `zUnsafe`, as the Python loop
raises at the first unsafe entry); only if none is unsafe does
`z.extractall(dest)` run, adding every entry to the destination.  The second
component is the destination directory's contents after the call. -/
def safeUnzip (entries : List ZPath) (dest : List ZPath) :
    Option BuildError × List ZPath :=
  match entries.find? zUnsafe with
  | some _ => (some .pathTraversal, dest)
  | none => (none, dest ++ entries)

/-- One entry yielded by `root.iterdir()` in `_detect_root_with_app_py`:
whether it is a directory and whether `<entry>/app.py` exists. -/
structure DirEntry where
  name : String
  isDir : Bool
  hasAppPy : Bool
deriving DecidableEq, Repr

/-- A root directory as inspected by `_detect_root_with_app_py`:
whether `root/app.py` exists, and the `iterdir()` listing in iteration
order. -/
structure RootDir where
  hasAppPy : Bool
  entries : List DirEntry
deriving DecidableEq, Repr

/-- The directory `_detect_root_with_app_py` resolves to: the given root
itself, or one of its immediate subdirectories. -/
inductive Resolved
  | root
  | sub (e : DirEntry)
deriving DecidableEq, Repr

/-- `_detect_root_with_app_py`: the root itself if `root/app.py` exists,
else the first immediate subdirectory containing `app.py` in iteration
order, else the root unchanged. -/
def detectRootWithAppPy (r : RootDir) : Resolved :=
  if r.hasAppPy then .root
  else
    match r.entries.find? (fun e => e.isDir && e.hasAppPy) with
    | some e => .sub e
    | none => .root

/-- Whether `app.py` exists at the resolved directory. -/
def resolvedHasAppPy (r : RootDir) : Resolved → Bool
  | .root => r.hasAppPy
  | .sub e => e.hasAppPy

/-- One interpreter candidate of the ordered, de-duplicated list `uniq`
built by `_create_venv`, with the exit status of its probe command
(`-c "import sys; print(sys.version)"`; an exception in `_try_probe` is
folded into a non-zero code) and of its `-m venv <target>` run. -/
structure Cand where
  name : String
  probeCode : Nat
  venvCode : Nat
deriving DecidableEq, Repr

/-- A candidate that both probes successfully and creates the venv. -/
def candSelected (c : Cand) : Bool :=
  (c.probeCode == 0) && (c.venvCode == 0)

/-- Contents of the destination-parent directory: a onedir bundle copy or a
zip archive, tagged with the content fingerprint it was produced from. -/
inductive Item
  | dir (content : Nat)
  | zipArchive (content : Nat)
deriving DecidableEq, Repr

/-- The observable state threaded through a build: progress percentages and
log lines emitted so far (in order), and the filesystem observables. -/
structure St where
  progress : List Nat
  logs : List String
  tmpExists : Bool
  venvExists : Bool
  buildOutExists : Bool
  distOutExists : Bool
  destFs : String → Option Item

/-- `phase(p)`: the progress callback receives `p`. -/
def phase (p : Nat) (s : St) : St :=
  { s with progress := s.progress ++ [p] }

/-- `_emit(log_cb, msg)`: the log callback receives `msg`. -/
def emit (msg : String) (s : St) : St :=
  { s with logs := s.logs ++ [msg] }

def remediation1 : String :=
  "No se encontró Python 3.10–3.12 en el sistema o no está en PATH/launcher."

def remediation2 : String :=
  "Instala Python desde https://www.python.org/downloads/windows/ con:"

def remediation3 : String :=
  " - Add Python to PATH (checkbox)"

def remediation4 : String :=
  " - Instalar py launcher for all users"

/-- The probing/creation loop of `_create_venv` over the ordered,
de-duplicated candidate list `uniq` (candidate discovery and de-duplication
are host-dependent and happen before this loop; the loop takes the list as
given).  A probe failure or a non-zero `-m venv` exit moves to the next
candidate; exhaustion emits the remediation lines and raises
(`interpreterNotFound`). -/
def createVenvLoop : List Cand → St → Except BuildError Cand × St
  | [], s =>
      let s := emit remediation1 s
      let s := emit remediation2 s
      let s := emit remediation3 s
      let s := emit remediation4 s
      (.error .interpreterNotFound, s)
  | c :: rest, s =>
      let s := emit ("Probando intérprete: " ++ c.name) s
      if c.probeCode == 0 then
        let s := emit ("Usando intérprete: " ++ c.name) s
        if c.venvCode == 0 then
          (.ok c, { s with venvExists := true })
        else createVenvLoop rest s
      else createVenvLoop rest s

/-- Inputs of `_pyinstaller_onedir`: whether `requirements.txt` exists at
the project root, the exit codes of the pip steps and of the PyInstaller
run, and the contents of `dist_out` after the run (entry name ↦ content
fingerprint). -/
structure PyiParams where
  reqExists : Bool
  pipUpgradeCode : Nat
  pipPyinstallerCode : Nat
  reqInstallCode : Nat
  pyiCode : Nat
  distItems : List (String × Nat)
deriving DecidableEq, Repr

def advisoryLine : String :=
  "Aviso: no hay requirements.txt; continuo con stdlib."

/-- First-match lookup in a directory listing (the `(dist / "app").exists()`
test and the selection of that directory). -/
def lookupName (n : String) : List (String × Nat) → Option Nat
  | [] => none
  | (k, v) :: rest => if k = n then some v else lookupName n rest

/-- `_pyinstaller_onedir`: removes `dist_out`/`build_out`, runs the pip
steps — the exit codes of `pip install --upgrade pip wheel setuptools`,
`pip install pyinstaller` and (when `requirements.txt` exists)
`pip install -r requirements.txt` are returned by `_run` but discarded by
the source, so `pipUpgradeCode`, `pipPyinstallerCode` and `reqInstallCode`
do not affect the result — emits the advisory when the manifest is absent,
then runs PyInstaller: a non-zero exit raises (`compilerError`); otherwise
`dist_out/app` is returned if present, else `artifactNotFound` is raised. -/
def pyinstallerOnedir (w : PyiParams) (s : St) : Except BuildError Nat × St :=
  let s := { s with distOutExists := false, buildOutExists := false }
  let s := if w.reqExists then s else emit advisoryLine s
  if w.pyiCode ≠ 0 then (.error .compilerError, s)
  else
    let s := { s with buildOutExists := true, distOutExists := true }
    match lookupName "app" w.distItems with
    | some c => (.ok c, s)
    | none => (.error .artifactNotFound, s)

/-- `_copy_and_zip_onedir`: removes any pre-existing
`<dest_parent>/<base>_onedir`, copies the bundle there, removes any
pre-existing `<base>_onedir.zip`, produces the archive from the copied
directory, logs both outputs, and returns the copied directory's name. -/
def copyAndZip (content : Nat) (baseName : String) (s : St) : String × St :=
  let dirName := baseName ++ "_onedir"
  let zipName := baseName ++ "_onedir.zip"
  let fs1 : String → Option Item :=
    fun n => if n = dirName then some (.dir content) else s.destFs n
  let fs2 : String → Option Item :=
    fun n => if n = zipName then some (.zipArchive content) else fs1 n
  let s := { s with destFs := fs2 }
  let s := emit ("Salida onedir: " ++ dirName) s
  let s := emit ("Zip: " ++ zipName) s
  (dirName, s)

/-- A filesystem path as a component list (`pathlib.Path`). -/
structure PyPath where
  parts : List String
deriving DecidableEq, Repr

/-- `Path.name`: the final component. -/
def pname (p : PyPath) : String := p.parts.getLastD ""

/-- `Path.parent`: the path without its final component. -/
def pparent (p : PyPath) : PyPath := ⟨p.parts.dropLast⟩

/-- Index of the last `.` in a character list (`str.rfind`). -/
def rfindDot : List Char → Option Nat
  | [] => none
  | c :: rest =>
      match rfindDot rest with
      | some i => some (i + 1)
      | none => if c = '.' then some 0 else none

/-- `PurePath.stem`: the name without its suffix — CPython keeps the name
unchanged unless the last dot is strictly inside the name
(`0 < i < len(name) - 1`). -/
def pstem (n : String) : String :=
  let cs := n.toList
  match rfindDot cs with
  | some i =>
      if 0 < i ∧ i + 1 < cs.length then String.mk (cs.take i) else n
  | none => n

/-- All build inputs: the source paths, the zip entries, the extracted (or
given) project tree as `_detect_root_with_app_py` sees it, the interpreter
candidates, the `_pyinstaller_onedir` inputs, and the pre-existing state of
the destination-parent directory and of the known working directories. -/
structure World where
  zipPath : PyPath
  projDir : PyPath
  zipEntries : List ZPath
  tree : RootDir
  candidates : List Cand
  pyi : PyiParams
  destFs0 : String → Option Item
  venvExists0 : Bool
  buildOutExists0 : Bool
  distOutExists0 : Bool

/-- The observable state before a build starts. -/
def initSt (w : World) : St :=
  { progress := []
    logs := []
    tmpExists := false
    venvExists := w.venvExists0
    buildOutExists := w.buildOutExists0
    distOutExists := w.distOutExists0
    destFs := w.destFs0 }

/-- The `try:` body of `build_from_zip`: extraction, root detection and
entry-point check, venv creation (after `rmtree(venv_dir)`), PyInstaller,
and packaging next to the zip (`dest_parent = zip_path.parent`,
`base_name = zip_path.stem`), with the phase callbacks of the source. -/
def buildFromZipBody (w : World) (s : St) : Except BuildError PyPath × St :=
  match (safeUnzip w.zipEntries []).1 with
  | some e => (.error e, s)
  | none =>
      let src := detectRootWithAppPy w.tree
      if resolvedHasAppPy w.tree src then
        let s := phase 25 s
        let s := { s with venvExists := false }
        match createVenvLoop w.candidates s with
        | (.error e, s) => (.error e, s)
        | (.ok _, s) =>
            let s := phase 60 s
            match pyinstallerOnedir w.pyi s with
            | (.error e, s) => (.error e, s)
            | (.ok content, s) =>
                let s := phase 85 s
                let baseName := pstem (pname w.zipPath)
                let (dirName, s) := copyAndZip content baseName s
                let s := phase 100 s
                (.ok ⟨(pparent w.zipPath).parts ++ [dirName]⟩, s)
      else (.error .missingEntrypoint, s)

/-- The state after `phase(5)` and `tempfile.mkdtemp` in `build_from_zip`:
the temporary extraction root now exists. -/
def zipStart (w : World) : St :=
  { phase 5 (initSt w) with tmpExists := true }

/-- `build_from_zip`: `phase(5)`, `mkdtemp`, the `try:` body, and the
`finally:` clause removing the temporary root on every exit path. -/
def buildFromZip (w : World) : Except BuildError PyPath × St :=
  match buildFromZipBody w (zipStart w) with
  | (r, s) => (r, { s with tmpExists := false })

/-- The state after `phase(10)` in `build_from_dir`. -/
def dirStart (w : World) : St :=
  phase 10 (initSt w)

/-- The body of `build_from_dir`: root detection and entry-point check on
the given directory, venv creation (after `rmtree(venv_dir)`), PyInstaller,
and packaging into that same directory (`dest_parent = proj_dir`,
`base_name = proj_dir.name`), with the phase callbacks of the source. -/
def buildFromDirBody (w : World) (s : St) : Except BuildError PyPath × St :=
  let src := detectRootWithAppPy w.tree
  if resolvedHasAppPy w.tree src then
    let s := phase 30 s
    let s := { s with venvExists := false }
    match createVenvLoop w.candidates s with
    | (.error e, s) => (.error e, s)
    | (.ok _, s) =>
        let s := phase 70 s
        match pyinstallerOnedir w.pyi s with
        | (.error e, s) => (.error e, s)
        | (.ok content, s) =>
            let s := phase 90 s
            let (dirName, s) := copyAndZip content (pname w.projDir) s
            let s := phase 100 s
            (.ok ⟨w.projDir.parts ++ [dirName]⟩, s)
  else (.error .missingEntrypoint, s)

/-- `build_from_dir`: `phase(10)` then the body above. -/
def buildFromDir (w : World) : Except BuildError PyPath × St :=
  buildFromDirBody w (dirStart w)

/-! ### Concrete example inputs (used to instantiate the theorems) -/

/-- An empty observable state. -/
def stEx : St :=
  { progress := []
    logs := []
    tmpExists := false
    venvExists := false
    buildOutExists := false
    distOutExists := false
    destFs := fun _ => none }

/-- A world on which both builds succeed: a safe zip next to `home`, a tree
with `app.py` at the root, one working interpreter candidate, no
`requirements.txt`, a zero PyInstaller exit and a `dist_out/app` bundle. -/
def okWorld : World :=
  { zipPath := ⟨["home", "proj.zip"]⟩
    projDir := ⟨["home", "myproj"]⟩
    zipEntries := [⟨false, ["app.py"]⟩]
    tree := ⟨true, []⟩
    candidates := [⟨"python3", 0, 0⟩]
    pyi := ⟨false, 0, 0, 0, 0, [("app", 7)]⟩
    destFs0 := fun _ => none
    venvExists0 := false
    buildOutExists0 := false
    distOutExists0 := false }

/-- A safe zip entry. -/
def zGood : ZPath := ⟨false, ["pkg", "app.py"]⟩

/-- A zip entry with a parent-directory segment. -/
def zBad : ZPath := ⟨false, ["pkg", "..", "evil.txt"]⟩

/-- A world whose zip contains one safe and one unsafe entry. -/
def badZipWorld : World :=
  { okWorld with zipEntries := [zGood, zBad] }

/-- A root without `app.py` whose second entry is a subdirectory with it. -/
def c2Root : RootDir :=
  ⟨false, [⟨"README", false, false⟩, ⟨"sub", true, true⟩]⟩

/-- A world whose tree has no `app.py` at the root nor in any subdirectory. -/
def c2WorldMissing : World :=
  { okWorld with tree := ⟨false, [⟨"docs", true, false⟩]⟩ }

/-- A candidate that probes fine but whose venv creation exits non-zero. -/
def candA : Cand := ⟨"py312", 0, 1⟩

/-- A candidate that probes fine and creates the venv. -/
def candB : Cand := ⟨"python3", 0, 0⟩

/-- `_pyinstaller_onedir` inputs: `requirements.txt` present and its install
exiting non-zero, PyInstaller succeeding with a `dist_out/app` bundle. -/
def c4Params : PyiParams := ⟨true, 0, 0, 1, 0, [("app", 0)]⟩

/-- `_pyinstaller_onedir` inputs: no `requirements.txt`, all zero exits. -/
def c4ParamsNoReq : PyiParams := ⟨false, 0, 0, 0, 0, [("app", 2)]⟩

/-- `_pyinstaller_onedir` inputs with `dist_out/app` present. -/
def c5ParamsApp : PyiParams := ⟨false, 0, 0, 0, 0, [("app", 5)]⟩

/-- `_pyinstaller_onedir` inputs whose `dist_out` holds a single directory
that is not named `app`. -/
def c5ParamsOther : PyiParams := ⟨false, 0, 0, 0, 0, [("miapp", 3)]⟩

/-! ### Helper lemmas -/

theorem find?_first {α} (p : α → Bool) (pre : List α) (e : α) (post : List α)
    (hpre : ∀ x ∈ pre, p x = false) (he : p e = true) :
    (pre ++ e :: post).find? p = some e := by
  induction pre with
  | nil => simpa using List.find?_cons_of_pos _ he
  | cons a as ih =>
      have ha : p a = false := hpre a (by simp)
      rw [List.cons_append, List.find?_cons_of_neg _ (by simp [ha])]
      exact ih fun x hx => hpre x (by simp [hx])

theorem append_onedir_ne_zip (b : String) :
    b ++ "_onedir" ≠ b ++ "_onedir.zip" := by
  intro h
  have hlen := congrArg String.length h
  rw [String.length_append, String.length_append] at hlen
  have h1 : "_onedir".length = 7 := rfl
  have h2 : "_onedir.zip".length = 11 := rfl
  omega

theorem createVenvLoop_frame (cs : List Cand) (s : St) :
    ((createVenvLoop cs s).2).progress = s.progress ∧
    ((createVenvLoop cs s).2).tmpExists = s.tmpExists ∧
    ((createVenvLoop cs s).2).buildOutExists = s.buildOutExists ∧
    ((createVenvLoop cs s).2).distOutExists = s.distOutExists ∧
    ((createVenvLoop cs s).2).destFs = s.destFs := by
  induction cs generalizing s with
  | nil => simp [createVenvLoop, emit]
  | cons c rest ih =>
      by_cases hp : (c.probeCode == 0) = true
      · by_cases hv : (c.venvCode == 0) = true
        · simp [createVenvLoop, emit, hp, hv]
        · simpa [createVenvLoop, emit, hp, hv] using ih _
      · simpa [createVenvLoop, emit, hp] using ih _

theorem createVenvLoop_err (cs : List Cand) (s : St) (e : BuildError)
    (h : (createVenvLoop cs s).1 = .error e) : e = .interpreterNotFound := by
  induction cs generalizing s with
  | nil => simpa [createVenvLoop] using h.symm
  | cons c rest ih =>
      by_cases hp : (c.probeCode == 0) = true
      · by_cases hv : (c.venvCode == 0) = true
        · simp [createVenvLoop, hp, hv] at h
        · exact ih _ (by simpa [createVenvLoop, hp, hv] using h)
      · exact ih _ (by simpa [createVenvLoop, hp] using h)

theorem createVenvLoop_ok_iff (cs : List Cand) (s : St) (c : Cand) :
    (createVenvLoop cs s).1 = .ok c ↔ cs.find? candSelected = some c := by
  induction cs generalizing s with
  | nil => simp [createVenvLoop]
  | cons a rest ih =>
      by_cases hp : (a.probeCode == 0) = true
      · by_cases hv : (a.venvCode == 0) = true
        · have hsel : candSelected a = true := by simp [candSelected, hp, hv]
          rw [List.find?_cons_of_pos _ hsel]
          simp [createVenvLoop, hp, hv]
        · have hsel : candSelected a = false := by
            simp [candSelected, hp]
            simpa using hv
          rw [List.find?_cons_of_neg _ (by simp [hsel])]
          simpa [createVenvLoop, hp, hv] using ih _
      · have hsel : candSelected a = false := by
          simp [candSelected]
          intro h0
          exact absurd (by simp [h0]) hp
        rw [List.find?_cons_of_neg _ (by simp [hsel])]
        simpa [createVenvLoop, hp] using ih _

theorem createVenvLoop_ok_venv (cs : List Cand) (s : St) (c : Cand)
    (h : (createVenvLoop cs s).1 = .ok c) :
    ((createVenvLoop cs s).2).venvExists = true := by
  induction cs generalizing s with
  | nil => simp [createVenvLoop] at h
  | cons a rest ih =>
      by_cases hp : (a.probeCode == 0) = true
      · by_cases hv : (a.venvCode == 0) = true
        · simp [createVenvLoop, hp, hv]
        · have h' := h
          simp only [createVenvLoop, hp, hv] at h' ⊢
          simp only [if_true, if_false, Bool.false_eq_true] at h' ⊢
          exact ih _ (by simpa using h')
      · have h' := h
        simp only [createVenvLoop, hp] at h' ⊢
        simp only [Bool.false_eq_true, if_false] at h' ⊢
        exact ih _ (by simpa using h')

theorem createVenvLoop_exhaust (cs : List Cand) (s : St)
    (h : ∀ c ∈ cs, candSelected c = false) :
    (createVenvLoop cs s).1 = .error .interpreterNotFound ∧
    remediation2 ∈ ((createVenvLoop cs s).2).logs := by
  induction cs generalizing s with
  | nil => simp [createVenvLoop, emit]
  | cons a rest ih =>
      have ha : candSelected a = false := h a (by simp)
      by_cases hp : (a.probeCode == 0) = true
      · have hv : (a.venvCode == 0) = false := by
          cases hveq : (a.venvCode == 0) with
          | true => simp [candSelected, hp, hveq] at ha
          | false => rfl
        have := ih (s := emit ("Usando intérprete: " ++ a.name)
          (emit ("Probando intérprete: " ++ a.name) s))
          (fun c hc => h c (by simp [hc]))
        simpa [createVenvLoop, hp, hv] using this
      · have := ih (s := emit ("Probando intérprete: " ++ a.name) s)
          (fun c hc => h c (by simp [hc]))
        simpa [createVenvLoop, hp] using this

theorem pyinstallerOnedir_frame (w : PyiParams) (s : St) :
    ((pyinstallerOnedir w s).2).progress = s.progress ∧
    ((pyinstallerOnedir w s).2).tmpExists = s.tmpExists ∧
    ((pyinstallerOnedir w s).2).venvExists = s.venvExists ∧
    ((pyinstallerOnedir w s).2).destFs = s.destFs := by
  by_cases hr : w.reqExists = true
  · by_cases hc : w.pyiCode = 0
    · cases hd : lookupName "app" w.distItems <;>
        simp [pyinstallerOnedir, hr, hc, hd, emit]
    · simp [pyinstallerOnedir, hr, hc, emit]
  · by_cases hc : w.pyiCode = 0
    · cases hd : lookupName "app" w.distItems <;>
        simp [pyinstallerOnedir, hr, hc, hd, emit]
    · simp [pyinstallerOnedir, hr, hc, emit]

theorem pyinstallerOnedir_err (w : PyiParams) (s : St) (e : BuildError)
    (h : (pyinstallerOnedir w s).1 = .error e) :
    e = .compilerError ∨ e = .artifactNotFound := by
  by_cases hc : w.pyiCode = 0
  · cases hd : lookupName "app" w.distItems with
    | none =>
        simp [pyinstallerOnedir, hc, hd] at h
        simp [← h]
    | some c => simp [pyinstallerOnedir, hc, hd] at h
  · simp [pyinstallerOnedir, hc] at h
    simp [← h]

theorem pyinstallerOnedir_ok (w : PyiParams) (s : St) (c : Nat)
    (h : (pyinstallerOnedir w s).1 = .ok c) :
    w.pyiCode = 0 ∧ lookupName "app" w.distItems = some c ∧
    ((pyinstallerOnedir w s).2).buildOutExists = true ∧
    ((pyinstallerOnedir w s).2).distOutExists = true := by
  by_cases hc : w.pyiCode = 0
  · cases hd : lookupName "app" w.distItems with
    | none => simp [pyinstallerOnedir, hc, hd] at h
    | some c' =>
        have : c' = c := by simpa [pyinstallerOnedir, hc, hd] using h
        subst this
        simp [pyinstallerOnedir, hc, hd]
  · simp [pyinstallerOnedir, hc] at h

theorem copyAndZip_fst (content : Nat) (baseName : String) (s : St) :
    (copyAndZip content baseName s).1 = baseName ++ "_onedir" := rfl

theorem copyAndZip_frame (content : Nat) (baseName : String) (s : St) :
    ((copyAndZip content baseName s).2).progress = s.progress ∧
    ((copyAndZip content baseName s).2).tmpExists = s.tmpExists ∧
    ((copyAndZip content baseName s).2).venvExists = s.venvExists ∧
    ((copyAndZip content baseName s).2).buildOutExists = s.buildOutExists ∧
    ((copyAndZip content baseName s).2).distOutExists = s.distOutExists := by
  simp [copyAndZip, emit]

theorem copyAndZip_destFs_dir (content : Nat) (baseName : String) (s : St) :
    ((copyAndZip content baseName s).2).destFs (baseName ++ "_onedir") =
      some (.dir content) := by
  simp [copyAndZip, emit, append_onedir_ne_zip baseName]

theorem copyAndZip_destFs_zip (content : Nat) (baseName : String) (s : St) :
    ((copyAndZip content baseName s).2).destFs (baseName ++ "_onedir.zip") =
      some (.zipArchive content) := by
  simp [copyAndZip, emit]

theorem buildFromZipBody_ok (w : World) (s0 : St) (p : PyPath)
    (h : (buildFromZipBody w s0).1 = .ok p) :
    ∃ c, lookupName "app" w.pyi.distItems = some c ∧
      p = ⟨(pparent w.zipPath).parts ++ [pstem (pname w.zipPath) ++ "_onedir"]⟩ ∧
      ((buildFromZipBody w s0).2).progress = s0.progress ++ [25, 60, 85, 100] ∧
      ((buildFromZipBody w s0).2).tmpExists = s0.tmpExists ∧
      ((buildFromZipBody w s0).2).venvExists = true ∧
      ((buildFromZipBody w s0).2).buildOutExists = true ∧
      ((buildFromZipBody w s0).2).distOutExists = true ∧
      ((buildFromZipBody w s0).2).destFs (pstem (pname w.zipPath) ++ "_onedir") =
        some (.dir c) ∧
      ((buildFromZipBody w s0).2).destFs (pstem (pname w.zipPath) ++ "_onedir.zip") =
        some (.zipArchive c) := by
  cases hs : (safeUnzip w.zipEntries []).1 with
  | some e => simp [buildFromZipBody, hs] at h
  | none =>
      by_cases hr : resolvedHasAppPy w.tree (detectRootWithAppPy w.tree) = true
      · rcases hcv : createVenvLoop w.candidates
          { phase 25 s0 with venvExists := false } with ⟨rv, s2⟩
        cases rv with
        | error e => simp [buildFromZipBody, hs, hr, hcv] at h
        | ok cand =>
            rcases hpy : pyinstallerOnedir w.pyi (phase 60 s2) with ⟨rp, s3⟩
            cases rp with
            | error e => simp [buildFromZipBody, hs, hr, hcv, hpy] at h
            | ok content =>
                rcases hcz : copyAndZip content (pstem (pname w.zipPath))
                  (phase 85 s3) with ⟨dn, s4⟩
                have hdn : dn = pstem (pname w.zipPath) ++ "_onedir" := by
                  have := copyAndZip_fst content (pstem (pname w.zipPath)) (phase 85 s3)
                  rw [hcz] at this
                  exact this
                have heq : buildFromZipBody w s0 =
                    (.ok ⟨(pparent w.zipPath).parts ++ [dn]⟩, phase 100 s4) := by
                  simp [buildFromZipBody, hs, hr, hcv, hpy, hcz]
                have hfcv := createVenvLoop_frame w.candidates
                  { phase 25 s0 with venvExists := false }
                rw [hcv] at hfcv
                have hvenv := createVenvLoop_ok_venv w.candidates
                  { phase 25 s0 with venvExists := false } cand (by rw [hcv])
                rw [hcv] at hvenv
                have hfpy := pyinstallerOnedir_frame w.pyi (phase 60 s2)
                rw [hpy] at hfpy
                have hok := pyinstallerOnedir_ok w.pyi (phase 60 s2) content (by rw [hpy])
                rw [hpy] at hok
                have hfcz := copyAndZip_frame content (pstem (pname w.zipPath)) (phase 85 s3)
                rw [hcz] at hfcz
                have hdir := copyAndZip_destFs_dir content (pstem (pname w.zipPath)) (phase 85 s3)
                rw [hcz] at hdir
                have hzip := copyAndZip_destFs_zip content (pstem (pname w.zipPath)) (phase 85 s3)
                rw [hcz] at hzip
                rw [heq] at h
                refine ⟨content, hok.2.1, ?_, ?_, ?_, ?_, ?_, ?_, ?_, ?_⟩
                · simpa [hdn] using h.symm
                · rw [heq]
                  simp [phase] at hfcz hfpy hfcv ⊢
                  rw [hfcz.1, hfpy.1, hfcv.1]
                  simp [phase]
                · rw [heq]
                  simp [phase] at hfcz hfpy hfcv ⊢
                  rw [hfcz.2.1, hfpy.2.1, hfcv.2.1]
                · rw [heq]
                  simp [phase] at hfcz hfpy hvenv ⊢
                  rw [hfcz.2.2.1, hfpy.2.2.1, hvenv]
                · rw [heq]
                  simp [phase] at hfcz hok ⊢
                  rw [hfcz.2.2.2.1]
                  exact hok.2.2.1
                · rw [heq]
                  simp [phase] at hfcz hok ⊢
                  rw [hfcz.2.2.2.2]
                  exact hok.2.2.2
                · rw [heq]
                  simpa [phase] using hdir
                · rw [heq]
                  simpa [phase] using hzip
      · simp [buildFromZipBody, hs, hr] at h

theorem buildFromDirBody_ok (w : World) (s0 : St) (p : PyPath)
    (h : (buildFromDirBody w s0).1 = .ok p) :
    ∃ c, lookupName "app" w.pyi.distItems = some c ∧
      p = ⟨w.projDir.parts ++ [pname w.projDir ++ "_onedir"]⟩ ∧
      ((buildFromDirBody w s0).2).progress = s0.progress ++ [30, 70, 90, 100] ∧
      ((buildFromDirBody w s0).2).tmpExists = s0.tmpExists ∧
      ((buildFromDirBody w s0).2).venvExists = true ∧
      ((buildFromDirBody w s0).2).buildOutExists = true ∧
      ((buildFromDirBody w s0).2).distOutExists = true ∧
      ((buildFromDirBody w s0).2).destFs (pname w.projDir ++ "_onedir") =
        some (.dir c) ∧
      ((buildFromDirBody w s0).2).destFs (pname w.projDir ++ "_onedir.zip") =
        some (.zipArchive c) := by
  by_cases hr : resolvedHasAppPy w.tree (detectRootWithAppPy w.tree) = true
  · rcases hcv : createVenvLoop w.candidates
      { phase 30 s0 with venvExists := false } with ⟨rv, s2⟩
    cases rv with
    | error e => simp [buildFromDirBody, hr, hcv] at h
    | ok cand =>
        rcases hpy : pyinstallerOnedir w.pyi (phase 70 s2) with ⟨rp, s3⟩
        cases rp with
        | error e => simp [buildFromDirBody, hr, hcv, hpy] at h
        | ok content =>
            rcases hcz : copyAndZip content (pname w.projDir)
              (phase 90 s3) with ⟨dn, s4⟩
            have hdn : dn = pname w.projDir ++ "_onedir" := by
              have := copyAndZip_fst content (pname w.projDir) (phase 90 s3)
              rw [hcz] at this
              exact this
            have heq : buildFromDirBody w s0 =
                (.ok ⟨w.projDir.parts ++ [dn]⟩, phase 100 s4) := by
              simp [buildFromDirBody, hr, hcv, hpy, hcz]
            have hfcv := createVenvLoop_frame w.candidates
              { phase 30 s0 with venvExists := false }
            rw [hcv] at hfcv
            have hvenv := createVenvLoop_ok_venv w.candidates
              { phase 30 s0 with venvExists := false } cand (by rw [hcv])
            rw [hcv] at hvenv
            have hfpy := pyinstallerOnedir_frame w.pyi (phase 70 s2)
            rw [hpy] at hfpy
            have hok := pyinstallerOnedir_ok w.pyi (phase 70 s2) content (by rw [hpy])
            rw [hpy] at hok
            have hfcz := copyAndZip_frame content (pname w.projDir) (phase 90 s3)
            rw [hcz] at hfcz
            have hdir := copyAndZip_destFs_dir content (pname w.projDir) (phase 90 s3)
            rw [hcz] at hdir
            have hzip := copyAndZip_destFs_zip content (pname w.projDir) (phase 90 s3)
            rw [hcz] at hzip
            rw [heq] at h
            refine ⟨content, hok.2.1, ?_, ?_, ?_, ?_, ?_, ?_, ?_, ?_⟩
            · simpa [hdn] using h.symm
            · rw [heq]
              simp [phase] at hfcz hfpy hfcv ⊢
              rw [hfcz.1, hfpy.1, hfcv.1]
              simp [phase]
            · rw [heq]
              simp [phase] at hfcz hfpy hfcv ⊢
              rw [hfcz.2.1, hfpy.2.1, hfcv.2.1]
            · rw [heq]
              simp [phase] at hfcz hfpy hvenv ⊢
              rw [hfcz.2.2.1, hfpy.2.2.1, hvenv]
            · rw [heq]
              simp [phase] at hfcz hok ⊢
              rw [hfcz.2.2.2.1]
              exact hok.2.2.1
            · rw [heq]
              simp [phase] at hfcz hok ⊢
              rw [hfcz.2.2.2.2]
              exact hok.2.2.2
            · rw [heq]
              simpa [phase] using hdir
            · rw [heq]
              simpa [phase] using hzip
  · simp [buildFromDirBody, hr] at h

theorem resolvedHasAppPy_detect_false_iff (r : RootDir) :
    resolvedHasAppPy r (detectRootWithAppPy r) = false ↔
    (r.hasAppPy = false ∧ ∀ e ∈ r.entries, (e.isDir && e.hasAppPy) = false) := by
  by_cases hroot : r.hasAppPy = true
  · simp [detectRootWithAppPy, hroot, resolvedHasAppPy]
  · have hroot' : r.hasAppPy = false := by simpa using hroot
    rcases hf : r.entries.find? (fun e => e.isDir && e.hasAppPy) with _ | e
    · have hall : ∀ x ∈ r.entries, (x.isDir && x.hasAppPy) = false := by
        intro x hx
        simpa using List.find?_eq_none.mp hf x hx
      have hL : resolvedHasAppPy r (detectRootWithAppPy r) = false := by
        simp [detectRootWithAppPy, hroot', hf, resolvedHasAppPy]
      exact ⟨fun _ => ⟨hroot', hall⟩, fun _ => hL⟩
    · have hsel : (e.isDir && e.hasAppPy) = true := by
        simpa using List.find?_some hf
      have hmem := List.mem_of_find?_eq_some hf
      have hL : resolvedHasAppPy r (detectRootWithAppPy r) = true := by
        rw [Bool.and_eq_true] at hsel
        simp [detectRootWithAppPy, hroot', hf, resolvedHasAppPy, hsel.2]
      constructor
      · intro h
        rw [hL] at h
        exact absurd h (by simp)
      · rintro ⟨_, hall⟩
        exact absurd hsel (by simp [hall e hmem])

theorem buildFromDir_missing_iff (w : World) :
    (buildFromDir w).1 = .error .missingEntrypoint ↔
    resolvedHasAppPy w.tree (detectRootWithAppPy w.tree) = false := by
  unfold buildFromDir
  by_cases hr : resolvedHasAppPy w.tree (detectRootWithAppPy w.tree) = true
  · simp only [hr]
    constructor
    · intro h
      exfalso
      rcases hcv : createVenvLoop w.candidates
        { phase 30 (dirStart w) with venvExists := false } with ⟨rv, s2⟩
      cases rv with
      | error e =>
          have he := createVenvLoop_err _ _ e (by rw [hcv])
          simp [buildFromDirBody, hr, hcv] at h
          rw [he] at h
          exact absurd h (by simp)
      | ok cand =>
          rcases hpy : pyinstallerOnedir w.pyi (phase 70 s2) with ⟨rp, s3⟩
          cases rp with
          | error e =>
              have he := pyinstallerOnedir_err _ _ e (by rw [hpy])
              simp [buildFromDirBody, hr, hcv, hpy] at h
              rcases he with he | he <;> rw [he] at h <;> exact absurd h (by simp)
          | ok content =>
              rcases hcz : copyAndZip content (pname w.projDir)
                (phase 90 s3) with ⟨dn, s4⟩
              simp [buildFromDirBody, hr, hcv, hpy, hcz] at h
    · intro h
      exact absurd h (by simp [hr])
  · have hrf : resolvedHasAppPy w.tree (detectRootWithAppPy w.tree) = false := by
      simpa using hr
    have hbody : buildFromDirBody w (dirStart w) =
        (.error .missingEntrypoint, dirStart w) := by
      simp [buildFromDirBody, hrf]
    rw [hbody]
    simp [hrf]

theorem buildFromZip_eta (w : World) :
    buildFromZip w = ((buildFromZipBody w (zipStart w)).1,
      { (buildFromZipBody w (zipStart w)).2 with tmpExists := false }) := by
  unfold buildFromZip
  rcases buildFromZipBody w (zipStart w) with ⟨r, s⟩
  rfl

/-! ### Claim theorems -/

/-- C1: if any archive entry has an absolute path or a `..` segment in its
component list, `_safe_unzip` fails with the PathTraversal error and writes
no entry at all — the destination is returned unchanged — and a zip build
over such an archive fails with PathTraversal. -/
theorem c1_unsafe_entry_aborts_extraction_unchanged
    (entries dest : List ZPath) (w : World)
    (h : ∃ e ∈ entries, zUnsafe e = true)
    (hw : ∃ e ∈ w.zipEntries, zUnsafe e = true) :
    safeUnzip entries dest = (some .pathTraversal, dest) ∧
    (buildFromZip w).1 = .error .pathTraversal := by
  have key : ∀ l : List ZPath, (∃ e ∈ l, zUnsafe e = true) →
      ∀ d : List ZPath, safeUnzip l d = (some .pathTraversal, d) := by
    intro l hl d
    have hsome : (l.find? zUnsafe).isSome := List.find?_isSome.mpr hl
    rcases hf : l.find? zUnsafe with _ | e
    · rw [hf] at hsome
      exact absurd hsome (by simp)
    · simp [safeUnzip, hf]
  refine ⟨key entries h dest, ?_⟩
  have hz : (safeUnzip w.zipEntries []).1 = some .pathTraversal := by
    rw [key w.zipEntries hw []]
  rw [buildFromZip_eta]
  simp [buildFromZipBody, hz]

/-- C1 witness: a concrete archive with one safe entry and one entry
containing `..` is rejected wholesale, the destination left empty. -/
theorem c1_witness :
    safeUnzip [zGood, zBad] [] = (some .pathTraversal, []) ∧
    (buildFromZip badZipWorld).1 = .error .pathTraversal :=
  c1_unsafe_entry_aborts_extraction_unchanged [zGood, zBad] [] badZipWorld
    ⟨zBad, by decide, by decide⟩ ⟨zBad, by decide, by decide⟩

/-- C2: `_detect_root_with_app_py` returns the root itself when `app.py`
exists there; otherwise the first immediate subdirectory (in iteration
order) containing `app.py`; otherwise the root unchanged — and a
directory build fails with MissingEntrypoint exactly when `app.py` is
absent at the resolved root, i.e. absent at the root and in every
immediate subdirectory. -/
theorem c2_root_detection_and_missing_entrypoint (w : World) (r : RootDir) :
    (r.hasAppPy = true → detectRootWithAppPy r = .root) ∧
    (∀ pre e post, r.hasAppPy = false → r.entries = pre ++ e :: post →
      (∀ x ∈ pre, (x.isDir && x.hasAppPy) = false) →
      (e.isDir && e.hasAppPy) = true →
      detectRootWithAppPy r = .sub e) ∧
    (r.hasAppPy = false → (∀ x ∈ r.entries, (x.isDir && x.hasAppPy) = false) →
      detectRootWithAppPy r = .root) ∧
    ((buildFromDir w).1 = .error .missingEntrypoint ↔
      (w.tree.hasAppPy = false ∧
        ∀ e ∈ w.tree.entries, (e.isDir && e.hasAppPy) = false)) := by
  refine ⟨?_, ?_, ?_, ?_⟩
  · intro h
    simp [detectRootWithAppPy, h]
  · intro pre e post hroot hentries hpre he
    have hf : r.entries.find? (fun x => x.isDir && x.hasAppPy) = some e := by
      rw [hentries]
      exact find?_first _ pre e post hpre he
    simp [detectRootWithAppPy, hroot, hf]
  · intro hroot hall
    have hf : r.entries.find? (fun x => x.isDir && x.hasAppPy) = none :=
      List.find?_eq_none.mpr fun x hx => by simp [hall x hx]
    simp [detectRootWithAppPy, hroot, hf]
  · exact (buildFromDir_missing_iff w).trans
      (resolvedHasAppPy_detect_false_iff w.tree)

/-- C2 witness: a root without `app.py` resolves to its first subdirectory
containing it (skipping a plain file), and a build over a tree with no
`app.py` anywhere fails with MissingEntrypoint. -/
theorem c2_witness :
    detectRootWithAppPy c2Root = .sub ⟨"sub", true, true⟩ ∧
    (buildFromDir c2WorldMissing).1 = .error .missingEntrypoint := by
  constructor
  · exact (c2_root_detection_and_missing_entrypoint c2WorldMissing c2Root).2.1
      [⟨"README", false, false⟩] ⟨"sub", true, true⟩ [] rfl rfl
      (by decide) (by decide)
  · exact (c2_root_detection_and_missing_entrypoint c2WorldMissing c2Root).2.2.2.mpr
      ⟨rfl, by decide⟩

/-- C3: the venv loop selects exactly the first candidate in priority order
whose probe exits zero and whose venv creation exits zero; in particular,
when candidate `a` probes fine but venv creation fails and the next
candidate `b` succeeds at both, `b` is selected and no InterpreterNotFound
is reported. -/
theorem c3_first_probing_and_venv_candidate_selected (cs : List Cand) (s : St) :
    (∀ c, (createVenvLoop cs s).1 = .ok c ↔ cs.find? candSelected = some c) ∧
    (∀ pre a b rest, (∀ x ∈ pre, candSelected x = false) →
      a.probeCode = 0 → a.venvCode ≠ 0 → b.probeCode = 0 → b.venvCode = 0 →
      (createVenvLoop (pre ++ a :: b :: rest) s).1 = .ok b) := by
  refine ⟨fun c => createVenvLoop_ok_iff cs s c, ?_⟩
  intro pre a b rest hpre hap hav hbp hbv
  rw [createVenvLoop_ok_iff]
  have hsa : candSelected a = false := by
    simp [candSelected, hav]
  have hsb : candSelected b = true := by
    simp [candSelected, hbp, hbv]
  have hsplit : pre ++ a :: b :: rest = (pre ++ [a]) ++ b :: rest := by
    simp
  rw [hsplit]
  refine find?_first candSelected (pre ++ [a]) b rest ?_ hsb
  intro x hx
  rcases List.mem_append.mp hx with hx | hx
  · exact hpre x hx
  · have : x = a := by simpa using hx
    rw [this]
    exact hsa

/-- C3 witness: with candidate list `[candA, candB]` where `candA` probes
fine but venv creation exits 1 and `candB` succeeds at both, `candB` is
selected. -/
theorem c3_witness :
    (createVenvLoop [candA, candB] stEx).1 = .ok candB :=
  (c3_first_probing_and_venv_candidate_selected [candA, candB] stEx).2
    [] candA candB [] (by simp) rfl (by decide) rfl rfl

/-- C5: after a zero PyInstaller exit, the compile step returns the bundle
at `dist_out/app` when present, and fails with ArtifactNotFound exactly
when that bundle is absent from `dist_out` — whatever else `dist_out`
contains, including a differently named single directory. -/
theorem c5_artifact_exactly_dist_app (w : PyiParams) (s : St)
    (h0 : w.pyiCode = 0) :
    (∀ c, lookupName "app" w.distItems = some c →
      (pyinstallerOnedir w s).1 = .ok c) ∧
    (lookupName "app" w.distItems = none →
      (pyinstallerOnedir w s).1 = .error .artifactNotFound) := by
  constructor
  · intro c hd
    by_cases hr : w.reqExists = true <;> simp [pyinstallerOnedir, h0, hr, hd]
  · intro hd
    by_cases hr : w.reqExists = true <;> simp [pyinstallerOnedir, h0, hr, hd]

/-- C5 witness: with `dist_out` containing `app` the bundle is returned;
with `dist_out` containing only a directory named `miapp`, the step fails
with ArtifactNotFound. -/
theorem c5_witness :
    (pyinstallerOnedir c5ParamsApp stEx).1 = .ok 5 ∧
    (pyinstallerOnedir c5ParamsOther stEx).1 = .error .artifactNotFound :=
  ⟨(c5_artifact_exactly_dist_app c5ParamsApp stEx rfl).1 5 rfl,
   (c5_artifact_exactly_dist_app c5ParamsOther stEx rfl).2 rfl⟩

/-- C8: when no candidate both probes successfully and creates the venv,
the loop fails with InterpreterNotFound, having emitted the remediation
(installation-instructions) line through the log channel. -/
theorem c8_exhaustion_interpreter_not_found_with_remediation
    (cs : List Cand) (s : St)
    (h : ∀ c ∈ cs, candSelected c = false) :
    (createVenvLoop cs s).1 = .error .interpreterNotFound ∧
    remediation2 ∈ ((createVenvLoop cs s).2).logs :=
  createVenvLoop_exhaust cs s h

/-- C8 witness: the empty candidate list fails with InterpreterNotFound and
logs the remediation line. -/
theorem c8_witness :
    (createVenvLoop [] stEx).1 = .error .interpreterNotFound ∧
    remediation2 ∈ ((createVenvLoop [] stEx).2).logs :=
  c8_exhaustion_interpreter_not_found_with_remediation [] stEx (by simp)

/-- C4 counterexample: with `requirements.txt` present and its install step
exiting non-zero (exit code 1), `_pyinstaller_onedir` does not fail — the
exit code of the manifest install is discarded and the step returns the
bundle — refuting the claim that the build then fails fatally with
DependencyInstallFailed. -/
theorem c4_counterexample :
    c4Params.reqExists = true ∧ c4Params.reqInstallCode = 1 ∧
    (pyinstallerOnedir c4Params stEx).1 = .ok 0 :=
  ⟨rfl, rfl, rfl⟩

/-- C4 (amended): the exit status of the dependency-manifest install step
is discarded — the result of `_pyinstaller_onedir` is independent of it and
the manifest phase never produces an error (only the bundler run or the
artifact lookup can fail) — and when the manifest is absent exactly one
advisory line is emitted through the log channel, after which the pipeline
continues. -/
theorem c4_manifest_install_exit_ignored (w : PyiParams) (s : St) :
    (∀ a b, pyinstallerOnedir { w with reqInstallCode := a } s =
      pyinstallerOnedir { w with reqInstallCode := b } s) ∧
    (w.reqExists = false →
      ((pyinstallerOnedir w s).2).logs.count advisoryLine =
        s.logs.count advisoryLine + 1) ∧
    (w.reqExists = true → ((pyinstallerOnedir w s).2).logs = s.logs) ∧
    (∀ e, (pyinstallerOnedir w s).1 = .error e →
      e = .compilerError ∨ e = .artifactNotFound) := by
  refine ⟨fun a b => rfl, ?_, ?_, fun e he => pyinstallerOnedir_err w s e he⟩
  · intro hreq
    by_cases hc : w.pyiCode = 0
    · cases hd : lookupName "app" w.distItems <;>
        simp [pyinstallerOnedir, hreq, hc, hd, emit, List.count_append]
    · simp [pyinstallerOnedir, hreq, hc, emit, List.count_append]
  · intro hreq
    by_cases hc : w.pyiCode = 0
    · cases hd : lookupName "app" w.distItems <;>
        simp [pyinstallerOnedir, hreq, hc, hd, emit]
    · simp [pyinstallerOnedir, hreq, hc, emit]

/-- C4 witness: the result is unchanged between manifest-install exit codes
3 and 9; without a manifest, exactly one advisory line is added; with a
manifest present nothing is logged by the dependency phase. -/
theorem c4_witness :
    pyinstallerOnedir { c4ParamsNoReq with reqInstallCode := 3 } stEx =
      pyinstallerOnedir { c4ParamsNoReq with reqInstallCode := 9 } stEx ∧
    ((pyinstallerOnedir c4ParamsNoReq stEx).2).logs.count advisoryLine =
      stEx.logs.count advisoryLine + 1 ∧
    ((pyinstallerOnedir c4Params stEx).2).logs = stEx.logs :=
  ⟨(c4_manifest_install_exit_ignored c4ParamsNoReq stEx).1 3 9,
   (c4_manifest_install_exit_ignored c4ParamsNoReq stEx).2.1 rfl,
   (c4_manifest_install_exit_ignored c4Params stEx).2.2.1 rfl⟩

/-- C6: on every successful build, packaging places a copy of the located
bundle at `<destinationParent>/<baseName>_onedir` and a zip of it at
`<destinationParent>/<baseName>_onedir.zip` — overwriting whatever the
destination directory previously held under those names — and returns the
copied directory path; for a zip source, destinationParent is the
archive's directory and baseName its stem; for a directory source, that
directory itself and its name. -/
theorem c6_packaging_copy_zip_and_destination (w : World) :
    (∀ p, (buildFromZip w).1 = .ok p →
      ∃ c, lookupName "app" w.pyi.distItems = some c ∧
        p = ⟨(pparent w.zipPath).parts ++ [pstem (pname w.zipPath) ++ "_onedir"]⟩ ∧
        ((buildFromZip w).2).destFs (pstem (pname w.zipPath) ++ "_onedir") =
          some (.dir c) ∧
        ((buildFromZip w).2).destFs (pstem (pname w.zipPath) ++ "_onedir.zip") =
          some (.zipArchive c)) ∧
    (∀ p, (buildFromDir w).1 = .ok p →
      ∃ c, lookupName "app" w.pyi.distItems = some c ∧
        p = ⟨w.projDir.parts ++ [pname w.projDir ++ "_onedir"]⟩ ∧
        ((buildFromDir w).2).destFs (pname w.projDir ++ "_onedir") =
          some (.dir c) ∧
        ((buildFromDir w).2).destFs (pname w.projDir ++ "_onedir.zip") =
          some (.zipArchive c)) := by
  constructor
  · intro p h
    rw [buildFromZip_eta] at h
    have h' : (buildFromZipBody w (zipStart w)).1 = .ok p := h
    rcases buildFromZipBody_ok w (zipStart w) p h' with
      ⟨c, hlook, hpath, _, _, _, _, _, hdir, hzip⟩
    refine ⟨c, hlook, hpath, ?_, ?_⟩
    · rw [buildFromZip_eta]
      exact hdir
    · rw [buildFromZip_eta]
      exact hzip
  · intro p h
    have h' : (buildFromDirBody w (dirStart w)).1 = .ok p := h
    rcases buildFromDirBody_ok w (dirStart w) p h' with
      ⟨c, hlook, hpath, _, _, _, _, _, hdir, hzip⟩
    exact ⟨c, hlook, hpath, hdir, hzip⟩

/-- C6 witness: on the concrete succeeding world, the zip build returns
`home/proj_onedir` (stem of `proj.zip`) and the directory build returns
`home/myproj/myproj_onedir`, with the copied bundle and its archive present
at the destination. -/
theorem c6_witness :
    (∃ c, lookupName "app" okWorld.pyi.distItems = some c ∧
      (⟨["home", "proj_onedir"]⟩ : PyPath) =
        ⟨(pparent okWorld.zipPath).parts ++
          [pstem (pname okWorld.zipPath) ++ "_onedir"]⟩ ∧
      ((buildFromZip okWorld).2).destFs
        (pstem (pname okWorld.zipPath) ++ "_onedir") = some (.dir c) ∧
      ((buildFromZip okWorld).2).destFs
        (pstem (pname okWorld.zipPath) ++ "_onedir.zip") = some (.zipArchive c)) ∧
    (∃ c, lookupName "app" okWorld.pyi.distItems = some c ∧
      (⟨["home", "myproj", "myproj_onedir"]⟩ : PyPath) =
        ⟨okWorld.projDir.parts ++ [pname okWorld.projDir ++ "_onedir"]⟩ ∧
      ((buildFromDir okWorld).2).destFs
        (pname okWorld.projDir ++ "_onedir") = some (.dir c) ∧
      ((buildFromDir okWorld).2).destFs
        (pname okWorld.projDir ++ "_onedir.zip") = some (.zipArchive c)) :=
  ⟨(c6_packaging_copy_zip_and_destination okWorld).1
      ⟨["home", "proj_onedir"]⟩ rfl,
   (c6_packaging_copy_zip_and_destination okWorld).2
      ⟨["home", "myproj", "myproj_onedir"]⟩ rfl⟩

/-- C7: across every successful build — zip-source or directory-source —
the sequence of progress percentages delivered to the progress callback is
non-decreasing and its final value is exactly 100. -/
theorem c7_progress_monotone_to_100 (w : World) :
    (∀ p, (buildFromZip w).1 = .ok p →
      List.Chain' (· ≤ ·) ((buildFromZip w).2).progress ∧
      ((buildFromZip w).2).progress.getLast? = some 100) ∧
    (∀ p, (buildFromDir w).1 = .ok p →
      List.Chain' (· ≤ ·) ((buildFromDir w).2).progress ∧
      ((buildFromDir w).2).progress.getLast? = some 100) := by
  constructor
  · intro p h
    rw [buildFromZip_eta] at h
    have h' : (buildFromZipBody w (zipStart w)).1 = .ok p := h
    rcases buildFromZipBody_ok w (zipStart w) p h' with
      ⟨c, _, _, hprog, _, _, _, _, _, _⟩
    have hstart : (zipStart w).progress = [5] := by
      simp [zipStart, phase, initSt]
    have hfinal : ((buildFromZip w).2).progress = [5, 25, 60, 85, 100] := by
      rw [buildFromZip_eta]
      show ((buildFromZipBody w (zipStart w)).2).progress = _
      rw [hprog, hstart]
      rfl
    rw [hfinal]
    exact ⟨by repeat constructor, rfl⟩
  · intro p h
    have h' : (buildFromDirBody w (dirStart w)).1 = .ok p := h
    rcases buildFromDirBody_ok w (dirStart w) p h' with
      ⟨c, _, _, hprog, _, _, _, _, _, _⟩
    have hstart : (dirStart w).progress = [10] := by
      simp [dirStart, phase, initSt]
    have hfinal : ((buildFromDir w).2).progress = [10, 30, 70, 90, 100] := by
      show ((buildFromDirBody w (dirStart w)).2).progress = _
      rw [hprog, hstart]
      rfl
    rw [hfinal]
    exact ⟨by repeat constructor, rfl⟩

/-- C7 witness: on the concrete succeeding world, both builds deliver a
non-decreasing progress sequence ending at 100. -/
theorem c7_witness :
    (List.Chain' (· ≤ ·) ((buildFromZip okWorld).2).progress ∧
      ((buildFromZip okWorld).2).progress.getLast? = some 100) ∧
    (List.Chain' (· ≤ ·) ((buildFromDir okWorld).2).progress ∧
      ((buildFromDir okWorld).2).progress.getLast? = some 100) :=
  ⟨(c7_progress_monotone_to_100 okWorld).1 ⟨["home", "proj_onedir"]⟩ rfl,
   (c7_progress_monotone_to_100 okWorld).2
      ⟨["home", "myproj", "myproj_onedir"]⟩ rfl⟩

/-- C9: for every archive-source build, the temporary extraction root is
created at the start (it exists when the `try:` body begins) and no longer
exists after the build completes, on every exit path — success or any
error. -/
theorem c9_temp_extraction_root_removed (w : World) :
    (zipStart w).tmpExists = true ∧
    ((buildFromZip w).2).tmpExists = false := by
  refine ⟨rfl, ?_⟩
  rw [buildFromZip_eta]

/-- C10: every directory-source build that returns successfully leaves the
isolated environment directory (`.venv_build`) and the bundler work and
output directories (`build_out`, `dist_out`) in existence after the build:
they are removed only at the start of a run, never at its end. -/
theorem c10_dir_build_leaves_work_dirs (w : World) (p : PyPath)
    (h : (buildFromDir w).1 = .ok p) :
    ((buildFromDir w).2).venvExists = true ∧
    ((buildFromDir w).2).buildOutExists = true ∧
    ((buildFromDir w).2).distOutExists = true := by
  have h' : (buildFromDirBody w (dirStart w)).1 = .ok p := h
  rcases buildFromDirBody_ok w (dirStart w) p h' with
    ⟨c, _, _, _, _, hvenv, hbuild, hdist, _, _⟩
  exact ⟨hvenv, hbuild, hdist⟩

/-- C10 witness: on the concrete succeeding world, `.venv_build`,
`build_out` and `dist_out` all still exist after the directory build. -/
theorem c10_witness :
    ((buildFromDir okWorld).2).venvExists = true ∧
    ((buildFromDir okWorld).2).buildOutExists = true ∧
    ((buildFromDir okWorld).2).distOutExists = true :=
  c10_dir_build_leaves_work_dirs okWorld
    ⟨["home", "myproj", "myproj_onedir"]⟩ rfl

end BuilderCore
